import Mathlib

/-!
Verification of the SafeLink URL security assessment engine.

This file gives a shallow embedding of the scan pipeline of `scanner.py`
(five analysis stages plus the `scan_url` aggregator) and of the scoring
engine of `ml_model.py` (anomaly-score normalisation and the hybrid
combiner), and proves the behavioural properties stated about them.

Modelling conventions:
* Python floats are modelled as rationals (`ℚ`); `round(x, 2)` is modelled
  as rounding `100*x` to the nearest integer (tie behaviour is irrelevant
  to every property proved here).
* Network effects (WHOIS lookups, TLS handshakes, HTTP redirects) are
  modelled by explicit outcome values passed to the stage functions; the
  stage functions themselves mirror the branch structure of the source.
* Third-party helpers that are not part of the repository (`tldextract`,
  `hashlib.md5`) are abstracted as function parameters, so every theorem
  holds for the real extractor/hash as a special case.
-/

namespace SafeLink

/-- `round(x, 2)` of Python, on rationals: round `100*x` to the nearest
integer and divide back.  (Python rounds half-to-even; the tie case is
never relevant in this development.) -/
def round2 (x : ℚ) : ℚ := (round (100 * x) : ℚ) / 100

theorem round2_nonneg {x : ℚ} (hx : 0 ≤ x) : 0 ≤ round2 x := by
  unfold round2
  have h1 : (0 : ℤ) ≤ round (100 * x) := by
    rw [round_eq]
    exact Int.le_floor.mpr (by push_cast; linarith)
  have h2 : (0 : ℚ) ≤ (round (100 * x) : ℚ) := by exact_mod_cast h1
  linarith

theorem round2_le_nat {x : ℚ} {n : ℕ} (h : x ≤ n) : round2 x ≤ n := by
  unfold round2
  have h1 : round (100 * x) ≤ (100 * n : ℤ) := by
    rw [round_eq]
    have h2 : ⌊(100 : ℚ) * x + 1 / 2⌋ < (100 * n : ℤ) + 1 := by
      rw [Int.floor_lt]
      push_cast
      linarith
    omega
  have h2 : (round (100 * x) : ℚ) ≤ ((100 * n : ℤ) : ℚ) := by exact_mod_cast h1
  have h3 : ((100 * n : ℤ) : ℚ) = 100 * n := by push_cast; ring
  rw [h3] at h2
  linarith

theorem round2_natCast (n : ℕ) : round2 (n : ℚ) = n := by
  unfold round2
  rw [show (100 : ℚ) * n = ((100 * n : ℕ) : ℚ) by push_cast; ring, round_natCast]
  push_cast
  field_simp

/-! ### String helpers (Python `str.strip`, `str.startswith`, `urlparse`) -/

/-- Python `str.strip()`: remove leading and trailing whitespace. -/
def pyStrip (s : String) : String :=
  String.mk (((s.data.dropWhile Char.isWhitespace).reverse.dropWhile Char.isWhitespace).reverse)

/-- Python `str.startswith(p)`. -/
def startsWithStr (s p : String) : Bool := p.data.isPrefixOf s.data

/-- Python `str.lower()` (ASCII case folding suffices here). -/
def lowerStr (s : String) : String := String.mk (s.data.map Char.toLower)

theorem isPrefixOf_iff_append {l1 l2 : List Char} :
    l1.isPrefixOf l2 = true ↔ ∃ t, l2 = l1 ++ t := by
  induction l1 generalizing l2 with
  | nil => simp [List.isPrefixOf]
  | cons a as ih =>
    cases l2 with
    | nil => simp [List.isPrefixOf]
    | cons b bs =>
      simp only [List.isPrefixOf, Bool.and_eq_true, beq_iff_eq, ih, List.cons_append,
        List.cons.injEq]
      constructor
      · rintro ⟨h1, t, h2⟩; exact ⟨t, h1.symm, h2⟩
      · rintro ⟨t, h1, h2⟩; exact ⟨h1.symm, t, h2⟩

/-! ### URL normalisation and validation (from `scan_url`, scanner.py) -/

/-- The normalisation at the top of `scan_url`: strip surrounding whitespace,
then prepend `https://` unless the string starts with `http://` or
`https://`. -/
def normalizeUrl (s : String) : String :=
  let t := pyStrip s
  if startsWithStr t "http://" || startsWithStr t "https://" then t else "https://" ++ t

/-- `urllib.parse.urlparse(u).netloc` for a URL that starts with
`http://` or `https://`: the characters between the `//` and the first
`/`, `?` or `#`. -/
def netlocOf (u : String) : String :=
  let rest :=
    if "https://".data.isPrefixOf u.data then u.data.drop 8
    else if "http://".data.isPrefixOf u.data then u.data.drop 7
    else []
  String.mk (rest.takeWhile (fun c => !(c = '/' || c = '?' || c = '#')))

/-- `urllib.parse.urlparse(u).scheme` for a URL that starts with
`http://` or `https://`. -/
def schemeOf (u : String) : String :=
  if "https://".data.isPrefixOf u.data then "https"
  else if "http://".data.isPrefixOf u.data then "http"
  else ""

/-- A character allowed inside a URL scheme after the leading letter
(RFC 3986 / `urllib.parse`). -/
def schemeCharOk (c : Char) : Bool := c.isAlphanum || c = '+' || c = '-' || c = '.'

def hasSchemeAux : List Char → Bool
  | [] => false
  | c :: cs => if c = ':' then true else schemeCharOk c && hasSchemeAux cs

def hasSchemeList : List Char → Bool
  | [] => false
  | c :: cs => c.isAlpha && hasSchemeAux cs

/-- Modelled from the spec: "normalized by prepending `https://` if no
scheme given".  A string "has a scheme" when it begins with a letter
followed by scheme characters and a colon, as `urllib.parse` recognises
schemes.  This is the spec-side notion used to compare against the
source's actual check (`startswith(("http://", "https://"))`). -/
def hasSchemeSpec (s : String) : Bool := hasSchemeList s.data

/-- `tldextract`'s registrable domain is abstracted as a pair
(domain, suffix); this mirrors
`f"{ext.domain}.{ext.suffix}" if ext.suffix else ext.domain`. -/
def mkRegistered (domain suffix : String) : String :=
  if suffix ≠ "" then domain ++ "." ++ suffix else domain

/-! ### Parameter 1: URL structure analysis (`analyze_url_structure`) -/

/-- The lexical features that feed the rule scoring of
`analyze_url_structure`.  Their extraction from the URL string (regexes,
`tldextract`, `urlparse`) is abstracted; the scoring below consumes the
extracted values exactly as the source does. -/
structure LexFeatures where
  url_length : Nat
  num_subdomains : Nat
  has_ip_in_url : Bool
  suspicious_patterns : Nat
  has_suspicious_tld : Bool
  num_hyphens : Nat
  special_char_count : Nat
  has_at_symbol : Bool
  pct_encoded_count : Nat
  has_double_encoding : Bool
  has_punycode : Bool
  is_url_shortener : Bool
  num_digits_in_domain : Nat
  path_depth : Nat
  deriving DecidableEq

/-- `min(15, (url_length - 75) // 10 * 3)` (Python floor division on
naturals, only evaluated when `url_length > 75`). -/
def lengthPenalty (n : Nat) : Nat := min 15 ((n - 75) / 10 * 3)

/-- Sum of the triggered rule deltas of `analyze_url_structure`, before
the stage cap. -/
def lexicalRawScore (f : LexFeatures) : Nat :=
  (if f.url_length > 75 then lengthPenalty f.url_length else 0) +
  (if f.has_ip_in_url then 25 else 0) +
  (if f.num_subdomains ≥ 3 then 10 else if f.num_subdomains = 2 then 5 else 0) +
  (if f.suspicious_patterns ≥ 3 then 15 else if f.suspicious_patterns ≥ 1 then 8 else 0) +
  (if f.has_suspicious_tld then 12 else 0) +
  (if f.num_hyphens ≥ 4 then 8 else 0) +
  (if f.special_char_count ≥ 5 then 7 else 0) +
  (if f.has_at_symbol then 15 else 0) +
  (if f.pct_encoded_count ≥ 3 then 8 else 0) +
  (if f.has_double_encoding then 12 else 0) +
  (if f.has_punycode then 10 else 0) +
  (if f.is_url_shortener then 10 else 0) +
  (if f.num_digits_in_domain ≥ 4 then 5 else 0)

structure UrlStructResult where
  features : LexFeatures
  rule_score : Nat
  deriving DecidableEq

/-- `analyze_url_structure`: rule score is the delta sum capped at 50. -/
def analyze_url_structure (f : LexFeatures) : UrlStructResult :=
  { features := f, rule_score := min (lexicalRawScore f) 50 }

/-! ### Parameter 2: domain analysis (`analyze_domain`) -/

def BENIGN_DOMAINS : List String :=
  ["google.com", "youtube.com", "facebook.com", "twitter.com", "instagram.com",
   "linkedin.com", "github.com", "microsoft.com", "apple.com", "amazon.com",
   "wikipedia.org", "reddit.com", "stackoverflow.com", "medium.com",
   "cloudflare.com", "netflix.com", "spotify.com", "zoom.us", "slack.com"]

/-- Outcome of the WHOIS lookup attempt inside the `try` of
`analyze_domain`: either the lookup raised (`failure`), or it succeeded
with a computed `domain_age_days` (`-1` when no creation date was
returned). -/
inductive WhoisLookup where
  | failure
  | success (ageDays : Int)
  deriving DecidableEq

structure DomainResult where
  domain_age_days : Int
  rule_score : Nat
  deriving DecidableEq

/-- The age-based rule scoring of `analyze_domain` after a successful
lookup. -/
def domainAgeScore (age : Int) : Nat :=
  if age = -1 then 10
  else if age < 30 then 20
  else if age < 180 then 12
  else if age < 365 then 5
  else 0

/-- `analyze_domain`, with the registrable domain precomputed and the
lookup environment explicit: benign allow-list short-circuit, WHOIS
module unavailable, lookup failure, or success with age scoring capped
at 25. -/
def analyze_domain (registered : String) (whoisAvailable : Bool)
    (lookup : WhoisLookup) : DomainResult :=
  if registered ∈ BENIGN_DOMAINS then
    { domain_age_days := 5000, rule_score := 0 }
  else if whoisAvailable = false then
    { domain_age_days := -1, rule_score := 8 }
  else
    match lookup with
    | .failure => { domain_age_days := -1, rule_score := 5 }
    | .success age => { domain_age_days := age, rule_score := min (domainAgeScore age) 25 }

/-! ### Parameter 3: SSL/TLS analysis (`analyze_ssl`) -/

/-- Outcome of the TLS connection attempt in `analyze_ssl`:
`ssl.SSLError`, a connection-level error (timeout / DNS / refused), any
other exception, or a successful handshake yielding the self-signed flag
and the certificate days-to-expiry (999 when `notAfter` is absent). -/
inductive SslConn where
  | sslError
  | connError
  | otherError
  | success (selfSigned : Bool) (daysLeft : Int)
  deriving DecidableEq

structure SslResult where
  has_https : Bool
  has_valid_ssl : Bool
  rule_score : Nat
  deriving DecidableEq

/-- Self-signed and expiry penalties after a successful handshake. -/
def sslSuccessRawScore (selfSigned : Bool) (daysLeft : Int) : Nat :=
  (if selfSigned then 15 else 0) +
  (if daysLeft < 0 then 18 else if daysLeft < 15 then 10 else if daysLeft < 30 then 5 else 0)

/-- `analyze_ssl`, with the parsed scheme and hostname and the connection
outcome explicit.  Mirrors the branch order of the source: non-https
scores 20 and skips everything, an empty hostname scores 5 before any
connection is attempted, otherwise one connection outcome applies. -/
def analyze_ssl (scheme hostname : String) (conn : SslConn) : SslResult :=
  if lowerStr scheme ≠ "https" then
    { has_https := false, has_valid_ssl := false, rule_score := 20 }
  else if hostname = "" then
    { has_https := true, has_valid_ssl := false, rule_score := 5 }
  else
    match conn with
    | .sslError => { has_https := true, has_valid_ssl := false, rule_score := 18 }
    | .connError => { has_https := true, has_valid_ssl := false, rule_score := 8 }
    | .otherError => { has_https := true, has_valid_ssl := false, rule_score := 5 }
    | .success ss dl =>
        { has_https := true, has_valid_ssl := true,
          rule_score := min (sslSuccessRawScore ss dl) 20 }

/-! ### Parameter 4: blacklist check (`check_blacklist`) -/

def BLACKLISTED_DOMAINS_SAMPLE : List String :=
  ["malware-test.com", "phishing-example.net", "evil-site.tk",
   "fakepaypal-secure.com", "login-amazon-verify.xyz"]

def DEMO_MALICIOUS_HASHES : List String := ["7f3a0f4d2b8c1e9a", "a1b2c3d4e5f67890"]

structure BlacklistResult where
  is_blacklisted : Bool
  blacklist_sources : List String
  rule_score : Nat
  deriving DecidableEq

/-- The body of `check_blacklist` after the registrable domain has been
extracted: exact match against the local list, and an MD5-prefix match
against the demo hash set (`hashlib.md5` abstracted as `md5hex`). -/
def checkBlacklistOfRegistered (md5hex : String → String) (registered : String) :
    BlacklistResult :=
  let localHit : Bool := decide (registered ∈ BLACKLISTED_DOMAINS_SAMPLE)
  let hashHit : Bool := decide (String.mk ((md5hex registered).data.take 16) ∈ DEMO_MALICIOUS_HASHES)
  let flag := localHit || hashHit
  { is_blacklisted := flag,
    blacklist_sources :=
      (if localHit then ["Local Threat Database"] else []) ++
      (if hashHit then ["Threat Hash Database"] else []),
    rule_score := if flag then 40 else 0 }

/-- `check_blacklist`: extract the registrable domain from the URL
(`tldextract` abstracted as `ext`) and look it up. -/
def check_blacklist (md5hex : String → String) (ext : String → String × String)
    (url : String) : BlacklistResult :=
  checkBlacklistOfRegistered md5hex (mkRegistered (ext url).1 (ext url).2)

/-! ### Parameter 5: redirect analysis (`analyze_redirects`) -/

/-- One hop of a redirect chain, carrying what the scoring consumes: the
scheme of the hop URL and its registrable domain (as computed by
`tldextract` in the source). -/
structure Hop where
  scheme : String
  regDomain : String
  deriving DecidableEq

/-- The downgrade loop of `analyze_redirects`: some adjacent pair goes
from `https` to `http`. -/
def hasDowngradePair : List Hop → Bool
  | a :: b :: rest => (a.scheme = "https" && b.scheme = "http") || hasDowngradePair (b :: rest)
  | _ => false

/-- `len(domains_visited)`: number of distinct registrable domains in the
chain. -/
def distinctDomainCount (chain : List Hop) : Nat :=
  (chain.map (fun h => h.regDomain)).dedup.length

/-- Outcome of following the redirect chain in `analyze_redirects`:
success with the response history and final hop, or one of the five
exception branches. -/
inductive RedirectOutcome where
  | success (history : List Hop) (finalHop : Hop)
  | tooManyRedirects
  | sslError
  | connError
  | timeout
  | otherError
  deriving DecidableEq

structure RedirectResult where
  redirect_count : Nat
  crosses_domains : Bool
  has_suspicious_hops : Bool
  rule_score : Nat
  deriving DecidableEq

def MAX_REDIRECTS : Nat := 10

/-- Hop-count, cross-domain and downgrade deltas on success, before the
stage cap. -/
def redirectSuccessRawScore (rc : Nat) (crosses downgrade : Bool) : Nat :=
  (if rc ≥ 5 then 15 else if rc ≥ 3 then 8 else 0) +
  (if crosses then 10 else 0) +
  (if downgrade then 12 else 0)

/-- `analyze_redirects`: on success the chain is the history followed by
the final response, the redirect count is the history length, and the
delta sum is capped at 20; each exception branch yields its fixed
penalty. -/
def analyze_redirects (outcome : RedirectOutcome) : RedirectResult :=
  match outcome with
  | .success history finalHop =>
      let chain := history ++ [finalHop]
      let rc := history.length
      let crosses : Bool := decide (distinctDomainCount chain > 2)
      let downgrade := hasDowngradePair chain
      { redirect_count := rc, crosses_domains := crosses, has_suspicious_hops := downgrade,
        rule_score := min (redirectSuccessRawScore rc crosses downgrade) 20 }
  | .tooManyRedirects =>
      { redirect_count := MAX_REDIRECTS, crosses_domains := false,
        has_suspicious_hops := false, rule_score := 18 }
  | .sslError =>
      { redirect_count := 0, crosses_domains := false,
        has_suspicious_hops := false, rule_score := 5 }
  | .connError =>
      { redirect_count := 0, crosses_domains := false,
        has_suspicious_hops := false, rule_score := 5 }
  | .timeout =>
      { redirect_count := 0, crosses_domains := false,
        has_suspicious_hops := false, rule_score := 3 }
  | .otherError =>
      { redirect_count := 0, crosses_domains := false,
        has_suspicious_hops := false, rule_score := 3 }

/-! ### Aggregation (`scan_url`) and the feature vector -/

/-- `FEATURE_NAMES` of ml_model.py: the fixed input order of the anomaly
model. -/
def FEATURE_NAMES : List String :=
  ["url_length", "num_subdomains", "has_https", "domain_age_days", "redirect_count",
   "is_blacklisted", "has_ip_in_url", "suspicious_patterns", "has_valid_ssl",
   "special_char_count", "num_hyphens", "path_depth", "pct_encoded_count",
   "has_at_symbol", "is_url_shortener"]

def boolToInt (b : Bool) : Int := if b then 1 else 0

/-- The `feature_vector` dict built in `scan_url`, as an association list
in the source's insertion order. -/
def featureVector (lex : LexFeatures) (dom : DomainResult) (sslr : SslResult)
    (bl : BlacklistResult) (rd : RedirectResult) : List (String × Int) :=
  [("url_length", (lex.url_length : Int)),
   ("num_subdomains", (lex.num_subdomains : Int)),
   ("has_https", boolToInt sslr.has_https),
   ("domain_age_days", dom.domain_age_days),
   ("redirect_count", (rd.redirect_count : Int)),
   ("is_blacklisted", boolToInt bl.is_blacklisted),
   ("has_ip_in_url", boolToInt lex.has_ip_in_url),
   ("suspicious_patterns", (lex.suspicious_patterns : Int)),
   ("has_valid_ssl", boolToInt sslr.has_valid_ssl),
   ("special_char_count", (lex.special_char_count : Int)),
   ("num_hyphens", (lex.num_hyphens : Int)),
   ("path_depth", (lex.path_depth : Int)),
   ("pct_encoded_count", (lex.pct_encoded_count : Int)),
   ("has_at_symbol", boolToInt lex.has_at_symbol),
   ("is_url_shortener", boolToInt lex.is_url_shortener)]

/-- The scan environment: everything the five stages obtain from outside
the URL string (extracted lexical features, WHOIS availability and
outcome, parsed hostname, TLS connection outcome, redirect outcome, and
the abstracted `hashlib.md5` / `tldextract` helpers). -/
structure ScanEnv where
  lex : LexFeatures
  whoisAvailable : Bool
  whoisLookup : WhoisLookup
  hostname : String
  sslConn : SslConn
  redirectOutcome : RedirectOutcome
  md5hex : String → String
  ext : String → String × String

structure ScanResult where
  url : String
  domain : String
  url_struct : UrlStructResult
  domain_info : DomainResult
  ssl_info : SslResult
  blacklist : BlacklistResult
  redirects : RedirectResult
  rule_score : Nat
  feature_vector : List (String × Int)

/-- `scan_url`: normalise, validate the netloc, run the five stages,
aggregate the rule score (sum capped at 100) and build the feature
vector. -/
def scan_url (env : ScanEnv) (rawUrl : String) : Except String ScanResult :=
  if netlocOf (normalizeUrl rawUrl) = "" then
    .error "Invalid URL format. Please include a valid domain."
  else
    let url := normalizeUrl rawUrl
    let registered := mkRegistered (env.ext url).1 (env.ext url).2
    let url_struct := analyze_url_structure env.lex
    let domain_info := analyze_domain registered env.whoisAvailable env.whoisLookup
    let ssl_info := analyze_ssl (schemeOf url) env.hostname env.sslConn
    let blacklist := check_blacklist env.md5hex env.ext url
    let redirects := analyze_redirects env.redirectOutcome
    let total := url_struct.rule_score + domain_info.rule_score + ssl_info.rule_score +
      blacklist.rule_score + redirects.rule_score
    .ok { url := url, domain := registered, url_struct := url_struct,
          domain_info := domain_info, ssl_info := ssl_info, blacklist := blacklist,
          redirects := redirects, rule_score := min total 100,
          feature_vector := featureVector env.lex domain_info ssl_info blacklist redirects }

/-! ### Anomaly scorer (`compute_ml_anomaly_score`, ml_model.py) -/

def SCORE_MIN : ℚ := -8/10
def SCORE_MAX : ℚ := 2/10

structure MlResult where
  ml_anomaly_score : ℚ
  is_anomaly : Bool
  anomaly_confidence : String
  deriving DecidableEq

/-- `compute_ml_anomaly_score`, with the two raw model outputs
(`score_samples` value and `decision_function` margin) explicit: clamp
the raw score into `[-0.8, 0.2]`, remap linearly to `[0, 100]`, round to
two decimals; the anomaly flag and confidence tier come from the
decision margin. -/
def compute_ml_anomaly_score (rawScore decision : ℚ) : MlResult :=
  let clamped := max SCORE_MIN (min SCORE_MAX rawScore)
  let normalized := round2 (((SCORE_MAX - clamped) / (SCORE_MAX - SCORE_MIN)) * 100)
  { ml_anomaly_score := normalized,
    is_anomaly := decide (decision < 0),
    anomaly_confidence :=
      if decision < -(15/100) then "High" else if decision < 0 then "Medium" else "Low" }

/-! ### Hybrid combiner (`compute_hybrid_risk_score`, ml_model.py) -/

def RULE_WEIGHT : ℚ := 60/100
def ML_WEIGHT : ℚ := 40/100

/-- The threat classification block of `compute_hybrid_risk_score`. -/
def threatLevelOf (hybrid : ℚ) : String :=
  if hybrid ≥ 70 then "High Risk" else if hybrid ≥ 40 then "Suspicious" else "Safe"

structure HybridResult where
  risk_score : ℚ
  threat_level : String
  deriving DecidableEq

/-- `compute_hybrid_risk_score`: weighted blend capped at 100 and rounded
to two decimals, then the blacklist floor (80) and the IP-literal floor
(60), then the threat classification. -/
def compute_hybrid_risk_score (ruleScore mlScore : ℚ)
    (isBlacklisted hasIpInUrl : Bool) : HybridResult :=
  let hybrid0 := round2 (min (RULE_WEIGHT * ruleScore + ML_WEIGHT * mlScore) 100)
  let hybrid1 := if isBlacklisted then max hybrid0 80 else hybrid0
  let hybrid2 := if hasIpInUrl then max hybrid1 60 else hybrid1
  { risk_score := hybrid2, threat_level := threatLevelOf hybrid2 }

/-! ## Theorems -/

theorem round2_le_hundred {x : ℚ} (h : x ≤ 100) : round2 x ≤ 100 := by
  have h2 := round2_le_nat (n := 100) (by exact_mod_cast h)
  exact_mod_cast h2

theorem threatLevelOf_safe_iff (x : ℚ) : threatLevelOf x = "Safe" ↔ x < 40 := by
  unfold threatLevelOf
  split_ifs with h1 h2
  · exact ⟨fun h => absurd h (by decide), fun h => absurd h (by linarith)⟩
  · exact ⟨fun h => absurd h (by decide), fun h => absurd h (by linarith)⟩
  · exact ⟨fun _ => by linarith, fun _ => rfl⟩

theorem threatLevelOf_suspicious_iff (x : ℚ) :
    threatLevelOf x = "Suspicious" ↔ 40 ≤ x ∧ x < 70 := by
  unfold threatLevelOf
  split_ifs with h1 h2
  · exact ⟨fun h => absurd h (by decide), fun h => absurd h1 (by push_neg; linarith [h.2])⟩
  · exact ⟨fun _ => ⟨h2, by linarith [lt_of_not_ge h1]⟩, fun _ => rfl⟩
  · exact ⟨fun h => absurd h (by decide), fun h => absurd h.1 (by push_neg; exact lt_of_not_ge h2)⟩

theorem threatLevelOf_high_iff (x : ℚ) : threatLevelOf x = "High Risk" ↔ 70 ≤ x := by
  unfold threatLevelOf
  split_ifs with h1 h2
  · exact ⟨fun _ => h1, fun _ => rfl⟩
  · exact ⟨fun h => absurd h (by decide), fun h => absurd h h1⟩
  · exact ⟨fun h => absurd h (by decide), fun h => absurd h h1⟩

/-- Claim C1: for rule score `r` and anomaly score `m` in `[0,100]` and any
flag pair, the hybrid combiner returns
`round2 (min (0.60*r + 0.40*m) 100)` raised by the blacklist floor (80)
and the IP-literal floor (60); the result stays in `[0,100]`, both flags
set yields at least 80, and the threat tier is `Safe` iff the final
hybrid is `< 40`, `Suspicious` iff it is in `[40,70)`, and `High Risk`
iff it is `≥ 70`. -/
theorem c1_hybrid_combiner (r m : ℚ) (bB bI : Bool)
    (hr0 : 0 ≤ r) (hr1 : r ≤ 100) (hm0 : 0 ≤ m) (hm1 : m ≤ 100) :
    ((compute_hybrid_risk_score r m bB bI).risk_score =
      (if bI then
        max (if bB then max (round2 (min (RULE_WEIGHT * r + ML_WEIGHT * m) 100)) 80
             else round2 (min (RULE_WEIGHT * r + ML_WEIGHT * m) 100)) 60
       else if bB then max (round2 (min (RULE_WEIGHT * r + ML_WEIGHT * m) 100)) 80
       else round2 (min (RULE_WEIGHT * r + ML_WEIGHT * m) 100))) ∧
    (bB = false → bI = false →
      (compute_hybrid_risk_score r m bB bI).risk_score =
        round2 (min (RULE_WEIGHT * r + ML_WEIGHT * m) 100)) ∧
    (bB = true → 80 ≤ (compute_hybrid_risk_score r m bB bI).risk_score) ∧
    (bI = true → 60 ≤ (compute_hybrid_risk_score r m bB bI).risk_score) ∧
    (bB = true ∧ bI = true → 80 ≤ (compute_hybrid_risk_score r m bB bI).risk_score) ∧
    0 ≤ (compute_hybrid_risk_score r m bB bI).risk_score ∧
    (compute_hybrid_risk_score r m bB bI).risk_score ≤ 100 ∧
    ((compute_hybrid_risk_score r m bB bI).threat_level = "Safe" ↔
      (compute_hybrid_risk_score r m bB bI).risk_score < 40) ∧
    ((compute_hybrid_risk_score r m bB bI).threat_level = "Suspicious" ↔
      40 ≤ (compute_hybrid_risk_score r m bB bI).risk_score ∧
      (compute_hybrid_risk_score r m bB bI).risk_score < 70) ∧
    ((compute_hybrid_risk_score r m bB bI).threat_level = "High Risk" ↔
      70 ≤ (compute_hybrid_risk_score r m bB bI).risk_score) := by
  have hb0 : 0 ≤ round2 (min (RULE_WEIGHT * r + ML_WEIGHT * m) 100) :=
    round2_nonneg (le_min (add_nonneg (mul_nonneg (by norm_num [RULE_WEIGHT]) hr0)
      (mul_nonneg (by norm_num [ML_WEIGHT]) hm0)) (by norm_num))
  have hb1 : round2 (min (RULE_WEIGHT * r + ML_WEIGHT * m) 100) ≤ 100 :=
    round2_le_hundred (min_le_right _ _)
  have hlevel : (compute_hybrid_risk_score r m bB bI).threat_level =
      threatLevelOf (compute_hybrid_risk_score r m bB bI).risk_score := rfl
  refine ⟨rfl, ?_, ?_, ?_, ?_, ?_, ?_, ?_, ?_, ?_⟩
  · intro h1 h2; subst h1; subst h2; rfl
  · intro h1
    subst h1
    cases bI with
    | false =>
        exact le_max_right _ _
    | true =>
        exact le_trans (le_max_right _ 80) (le_max_left _ 60)
  · intro h1
    subst h1
    exact le_max_right _ _
  · rintro ⟨h1, h2⟩
    subst h1; subst h2
    exact le_trans (le_max_right _ 80) (le_max_left _ 60)
  · cases bB <;> cases bI <;>
      simp only [compute_hybrid_risk_score, Bool.false_eq_true, if_false, if_true, le_max_iff] <;>
      tauto
  · cases bB <;> cases bI <;>
      · simp only [compute_hybrid_risk_score, Bool.false_eq_true, if_false, if_true]
        first
          | exact hb1
          | exact max_le hb1 (by norm_num)
          | exact max_le (max_le hb1 (by norm_num)) (by norm_num)
  · rw [hlevel]; exact threatLevelOf_safe_iff _
  · rw [hlevel]; exact threatLevelOf_suspicious_iff _
  · rw [hlevel]; exact threatLevelOf_high_iff _

/-- Witness for C1 at `r = 0`, `m = 0`, blacklist flag set: the floor
raises the hybrid to at least 80. -/
theorem c1_hybrid_combiner_witness :
    80 ≤ (compute_hybrid_risk_score 0 0 true false).risk_score :=
  (c1_hybrid_combiner 0 0 true false (by decide) (by decide) (by decide)
    (by decide)).2.2.1 rfl

/-! ### Stage-cap lemmas and a concrete test environment -/

theorem analyze_domain_score_le (reg : String) (avail : Bool) (lk : WhoisLookup) :
    (analyze_domain reg avail lk).rule_score ≤ 25 := by
  unfold analyze_domain
  split_ifs
  · simp
  · simp
  · cases lk with
    | failure => simp
    | success age => simpa using Nat.min_le_right (domainAgeScore age) 25

theorem analyze_ssl_score_le (scheme hostname : String) (conn : SslConn) :
    (analyze_ssl scheme hostname conn).rule_score ≤ 20 := by
  unfold analyze_ssl
  split_ifs
  · simp
  · simp
  · cases conn with
    | sslError => simp
    | connError => simp
    | otherError => simp
    | success ss dl => simpa using Nat.min_le_right (sslSuccessRawScore ss dl) 20

theorem analyze_redirects_score_le (outcome : RedirectOutcome) :
    (analyze_redirects outcome).rule_score ≤ 20 := by
  cases outcome with
  | success history finalHop =>
      simpa [analyze_redirects] using
        Nat.min_le_right (redirectSuccessRawScore history.length
          (decide (distinctDomainCount (history ++ [finalHop]) > 2))
          (hasDowngradePair (history ++ [finalHop]))) 20
  | tooManyRedirects => simp [analyze_redirects]
  | sslError => simp [analyze_redirects]
  | connError => simp [analyze_redirects]
  | timeout => simp [analyze_redirects]
  | otherError => simp [analyze_redirects]

theorem checkBlacklistOfRegistered_char (md5hex : String → String) (reg : String) :
    ((checkBlacklistOfRegistered md5hex reg).rule_score =
      if (checkBlacklistOfRegistered md5hex reg).is_blacklisted then 40 else 0) ∧
    ((checkBlacklistOfRegistered md5hex reg).is_blacklisted = true ↔
      (checkBlacklistOfRegistered md5hex reg).blacklist_sources ≠ []) := by
  unfold checkBlacklistOfRegistered
  cases h1 : decide (reg ∈ BLACKLISTED_DOMAINS_SAMPLE) <;>
    cases h2 : decide (String.mk ((md5hex reg).data.take 16) ∈ DEMO_MALICIOUS_HASHES) <;>
      simp [h1, h2]

/-- Lexical features of a short benign URL, used to instantiate the
universally quantified theorems at a concrete point. -/
def testLex : LexFeatures :=
  { url_length := 13, num_subdomains := 0, has_ip_in_url := false, suspicious_patterns := 0,
    has_suspicious_tld := false, num_hyphens := 0, special_char_count := 0,
    has_at_symbol := false, pct_encoded_count := 0, has_double_encoding := false,
    has_punycode := false, is_url_shortener := false, num_digits_in_domain := 0,
    path_depth := 0 }

/-- A concrete scan environment used by the witness theorems. -/
def testEnv : ScanEnv :=
  { lex := testLex, whoisAvailable := true, whoisLookup := .success 5000,
    hostname := "a.com", sslConn := .success false 100,
    redirectOutcome := .success [] { scheme := "https", regDomain := "a.com" },
    md5hex := fun _ => "00000000000000000000000000000000", ext := fun _ => ("a", "com") }

/-- The scan result that `scan_url testEnv "a.com"` produces. -/
def testResult : ScanResult :=
  match scan_url testEnv "a.com" with
  | .ok r => r
  | .error _ =>
      { url := "", domain := "", url_struct := analyze_url_structure testLex,
        domain_info := { domain_age_days := 0, rule_score := 0 },
        ssl_info := { has_https := false, has_valid_ssl := false, rule_score := 0 },
        blacklist := { is_blacklisted := false, blacklist_sources := [], rule_score := 0 },
        redirects := { redirect_count := 0, crosses_domains := false,
                       has_suspicious_hops := false, rule_score := 0 },
        rule_score := 0, feature_vector := [] }

theorem scan_url_testEnv_eq : scan_url testEnv "a.com" = .ok testResult := rfl

/-- Claim C2: every stage score respects its documented cap (lexical 50,
domain age 25, TLS 20, redirect 20, blacklist exactly 40 on a match and
0 otherwise), and `scan_url` aggregates them as the sum capped at 100,
so the rule score is always in `[0, 100]`. -/
theorem c2_stage_caps (env : ScanEnv) (url : String) (r : ScanResult)
    (h : scan_url env url = .ok r) :
    r.url_struct.rule_score ≤ 50 ∧
    r.domain_info.rule_score ≤ 25 ∧
    r.ssl_info.rule_score ≤ 20 ∧
    r.redirects.rule_score ≤ 20 ∧
    (r.blacklist.rule_score = if r.blacklist.is_blacklisted then 40 else 0) ∧
    (r.blacklist.is_blacklisted = true ↔ r.blacklist.blacklist_sources ≠ []) ∧
    r.rule_score = min (r.url_struct.rule_score + r.domain_info.rule_score +
      r.ssl_info.rule_score + r.blacklist.rule_score + r.redirects.rule_score) 100 ∧
    r.rule_score ≤ 100 := by
  unfold scan_url at h
  split_ifs at h
  simp only [Except.ok.injEq] at h
  subst h
  refine ⟨Nat.min_le_right _ _, analyze_domain_score_le _ _ _,
    analyze_ssl_score_le _ _ _, analyze_redirects_score_le _,
    (checkBlacklistOfRegistered_char _ _).1, (checkBlacklistOfRegistered_char _ _).2,
    rfl, Nat.min_le_right _ _⟩

/-- Witness for C2 at the concrete environment `testEnv` and input
`"a.com"`. -/
theorem c2_stage_caps_witness :
    testResult.url_struct.rule_score ≤ 50 ∧
    testResult.domain_info.rule_score ≤ 25 ∧
    testResult.ssl_info.rule_score ≤ 20 ∧
    testResult.redirects.rule_score ≤ 20 ∧
    (testResult.blacklist.rule_score =
      if testResult.blacklist.is_blacklisted then 40 else 0) ∧
    (testResult.blacklist.is_blacklisted = true ↔
      testResult.blacklist.blacklist_sources ≠ []) ∧
    testResult.rule_score = min (testResult.url_struct.rule_score +
      testResult.domain_info.rule_score + testResult.ssl_info.rule_score +
      testResult.blacklist.rule_score + testResult.redirects.rule_score) 100 ∧
    testResult.rule_score ≤ 100 :=
  c2_stage_caps testEnv "a.com" testResult scan_url_testEnv_eq

/-- Claim C3: a URL whose normalised form has an empty authority is
rejected with the fixed error message (independently of every stage
outcome, i.e. no stage runs), and a URL with a non-empty authority
always yields a complete scan result holding the five stage results. -/
theorem c3_input_validation (url : String) :
    (netlocOf (normalizeUrl url) = "" →
      ∀ env : ScanEnv,
        scan_url env url = .error "Invalid URL format. Please include a valid domain.") ∧
    (netlocOf (normalizeUrl url) ≠ "" →
      ∀ env : ScanEnv, ∃ r : ScanResult, scan_url env url = .ok r ∧
        r.url_struct = analyze_url_structure env.lex ∧
        r.domain_info = analyze_domain
          (mkRegistered (env.ext (normalizeUrl url)).1 (env.ext (normalizeUrl url)).2)
          env.whoisAvailable env.whoisLookup ∧
        r.ssl_info = analyze_ssl (schemeOf (normalizeUrl url)) env.hostname env.sslConn ∧
        r.blacklist = check_blacklist env.md5hex env.ext (normalizeUrl url) ∧
        r.redirects = analyze_redirects env.redirectOutcome) := by
  constructor
  · intro hv env
    unfold scan_url
    rw [if_pos hv]
  · intro hv env
    unfold scan_url
    rw [if_neg hv]
    exact ⟨_, rfl, rfl, rfl, rfl, rfl, rfl⟩

/-- Witness for C3 at `"a.com"` (non-empty authority) and `testEnv`. -/
theorem c3_input_validation_witness :
    ∃ r : ScanResult, scan_url testEnv "a.com" = .ok r ∧
      r.url_struct = analyze_url_structure testEnv.lex ∧
      r.domain_info = analyze_domain
        (mkRegistered (testEnv.ext (normalizeUrl "a.com")).1
          (testEnv.ext (normalizeUrl "a.com")).2)
        testEnv.whoisAvailable testEnv.whoisLookup ∧
      r.ssl_info = analyze_ssl (schemeOf (normalizeUrl "a.com")) testEnv.hostname
        testEnv.sslConn ∧
      r.blacklist = check_blacklist testEnv.md5hex testEnv.ext (normalizeUrl "a.com") ∧
      r.redirects = analyze_redirects testEnv.redirectOutcome :=
  (c3_input_validation "a.com").2 (by decide) testEnv

/-! ### C4: URL normalisation -/

theorem hasSchemeAux_append (pre t : List Char) (hp : ∀ c ∈ pre, schemeCharOk c = true) :
    hasSchemeAux (pre ++ ':' :: t) = true := by
  induction pre with
  | nil => simp [hasSchemeAux]
  | cons a as ih =>
      by_cases hc : a = ':'
      · simp [hasSchemeAux, hc]
      · have ha := hp a (by simp)
        simp [hasSchemeAux, hc, ha, ih (fun c hcm => hp c (by simp [hcm]))]

theorem hasSchemeSpec_of_startsWith_http {s : String}
    (h : startsWithStr s "http://" = true ∨ startsWithStr s "https://" = true) :
    hasSchemeSpec s = true := by
  cases h with
  | inl h =>
      obtain ⟨t, ht⟩ := isPrefixOf_iff_append.mp h
      have h2 : s.data = 'h' :: (['t', 't', 'p'] ++ (':' :: ('/' :: '/' :: t))) := by
        rw [ht]; rfl
      unfold hasSchemeSpec
      rw [h2]
      simp only [hasSchemeList, Bool.and_eq_true]
      exact ⟨by decide, hasSchemeAux_append _ _ (by decide)⟩
  | inr h =>
      obtain ⟨t, ht⟩ := isPrefixOf_iff_append.mp h
      have h2 : s.data = 'h' :: (['t', 't', 'p', 's'] ++ (':' :: ('/' :: '/' :: t))) := by
        rw [ht]; rfl
      unfold hasSchemeSpec
      rw [h2]
      simp only [hasSchemeList, Bool.and_eq_true]
      exact ⟨by decide, hasSchemeAux_append _ _ (by decide)⟩

/-- Counterexample to claim C4 as stated: `"ftp://example.com"` has a
scheme, yet the normalisation does not leave it unchanged — it prepends
`https://` because the check is a literal `http://`/`https://` prefix
test, not a scheme test. -/
theorem c4_counterexample :
    hasSchemeSpec (pyStrip "ftp://example.com") = true ∧
    normalizeUrl "ftp://example.com" = "https://ftp://example.com" ∧
    "https://ftp://example.com" ≠ "ftp://example.com" :=
  ⟨by decide, by decide, by decide⟩

/-- Claim C4 (amended): after stripping surrounding whitespace, the
normalisation prepends `https://` exactly when the stripped string does
not start with `http://` or `https://` (in particular whenever it has no
scheme at all), and otherwise leaves the stripped string unchanged. -/
theorem c4_normalization (s : String) :
    (startsWithStr (pyStrip s) "http://" = false →
      startsWithStr (pyStrip s) "https://" = false →
      normalizeUrl s = "https://" ++ pyStrip s) ∧
    (startsWithStr (pyStrip s) "http://" = true ∨
      startsWithStr (pyStrip s) "https://" = true →
      normalizeUrl s = pyStrip s) ∧
    (hasSchemeSpec (pyStrip s) = false → normalizeUrl s = "https://" ++ pyStrip s) := by
  refine ⟨?_, ?_, ?_⟩
  · intro h1 h2
    simp [normalizeUrl, h1, h2]
  · intro h
    cases h with
    | inl h => simp [normalizeUrl, h]
    | inr h => simp [normalizeUrl, h]
  · intro hns
    cases hb1 : startsWithStr (pyStrip s) "http://" with
    | true => exact absurd (hasSchemeSpec_of_startsWith_http (Or.inl hb1)) (by simp [hns])
    | false =>
        cases hb2 : startsWithStr (pyStrip s) "https://" with
        | true => exact absurd (hasSchemeSpec_of_startsWith_http (Or.inr hb2)) (by simp [hns])
        | false => simp [normalizeUrl, hb1, hb2]

/-- Witness for C4 (amended) at `"example.com"`: no scheme, so
`https://` is prepended. -/
theorem c4_normalization_witness :
    normalizeUrl "example.com" = "https://" ++ pyStrip "example.com" :=
  (c4_normalization "example.com").2.2 (by decide)

/-! ### C5: feature-vector order -/

/-- Claim C5: every scan result's feature vector consists of exactly the
15 named features, in the fixed order that equals `FEATURE_NAMES`, the
input order the anomaly scorer consumes. -/
theorem c5_feature_order (env : ScanEnv) (url : String) (r : ScanResult)
    (h : scan_url env url = .ok r) :
    r.feature_vector.map Prod.fst = FEATURE_NAMES ∧ FEATURE_NAMES.length = 15 := by
  unfold scan_url at h
  split_ifs at h
  simp only [Except.ok.injEq] at h
  subst h
  exact ⟨rfl, rfl⟩

/-- Witness for C5 at `testEnv` and `"a.com"`. -/
theorem c5_feature_order_witness :
    testResult.feature_vector.map Prod.fst = FEATURE_NAMES ∧
    FEATURE_NAMES.length = 15 :=
  c5_feature_order testEnv "a.com" testResult scan_url_testEnv_eq

/-! ### C6: anomaly scorer -/

theorem round2_hundred : round2 (100 : ℚ) = 100 := by exact_mod_cast round2_natCast 100

theorem round2_zero : round2 (0 : ℚ) = 0 := by exact_mod_cast round2_natCast 0

/-- Claim C6: the anomaly scorer normalises the raw model score by
clamping it into `[-0.8, 0.2]` and linearly remapping, rounded to two
decimals, so that scores `≤ -0.8` map to 100, scores `≥ 0.2` map to 0,
and the result is always in `[0, 100]`; the anomaly flag holds iff the
decision margin is negative, and the confidence is `High` iff the margin
is `< -0.15`, `Medium` iff it is in `[-0.15, 0)`, `Low` otherwise. -/
theorem c6_anomaly_scorer (s d : ℚ) :
    ((compute_ml_anomaly_score s d).ml_anomaly_score =
      round2 (((SCORE_MAX - max SCORE_MIN (min SCORE_MAX s)) /
        (SCORE_MAX - SCORE_MIN)) * 100)) ∧
    (s ≤ -(8/10) → (compute_ml_anomaly_score s d).ml_anomaly_score = 100) ∧
    ((2/10) ≤ s → (compute_ml_anomaly_score s d).ml_anomaly_score = 0) ∧
    0 ≤ (compute_ml_anomaly_score s d).ml_anomaly_score ∧
    (compute_ml_anomaly_score s d).ml_anomaly_score ≤ 100 ∧
    ((compute_ml_anomaly_score s d).is_anomaly = true ↔ d < 0) ∧
    ((compute_ml_anomaly_score s d).anomaly_confidence = "High" ↔ d < -(15/100)) ∧
    ((compute_ml_anomaly_score s d).anomaly_confidence = "Medium" ↔
      -(15/100) ≤ d ∧ d < 0) ∧
    ((compute_ml_anomaly_score s d).anomaly_confidence = "Low" ↔ 0 ≤ d) := by
  have hc1 : SCORE_MIN ≤ max SCORE_MIN (min SCORE_MAX s) := le_max_left _ _
  have hc2 : max SCORE_MIN (min SCORE_MAX s) ≤ SCORE_MAX :=
    max_le (by norm_num [SCORE_MIN, SCORE_MAX]) (min_le_left _ _)
  have hval : ∀ c : ℚ, ((SCORE_MAX - c) / (SCORE_MAX - SCORE_MIN)) * 100 =
      (SCORE_MAX - c) * 100 := by
    intro c
    norm_num [SCORE_MIN, SCORE_MAX]
  refine ⟨rfl, ?_, ?_, ?_, ?_, ?_, ?_, ?_, ?_⟩
  · intro hs
    have h1 : max SCORE_MIN (min SCORE_MAX s) = SCORE_MIN := by
      rw [min_eq_right (le_trans hs (by norm_num [SCORE_MAX]))]
      exact max_eq_left (by rw [SCORE_MIN]; linarith)
    show round2 (((SCORE_MAX - max SCORE_MIN (min SCORE_MAX s)) /
      (SCORE_MAX - SCORE_MIN)) * 100) = 100
    rw [h1, hval]
    rw [show (SCORE_MAX - SCORE_MIN) * 100 = (100 : ℚ) by norm_num [SCORE_MIN, SCORE_MAX]]
    exact round2_hundred
  · intro hs
    have h1 : max SCORE_MIN (min SCORE_MAX s) = SCORE_MAX := by
      rw [min_eq_left (by rw [SCORE_MAX]; exact hs)]
      exact max_eq_right (by norm_num [SCORE_MIN, SCORE_MAX])
    show round2 (((SCORE_MAX - max SCORE_MIN (min SCORE_MAX s)) /
      (SCORE_MAX - SCORE_MIN)) * 100) = 0
    rw [h1]
    rw [show ((SCORE_MAX - SCORE_MAX) / (SCORE_MAX - SCORE_MIN)) * 100 = (0 : ℚ) by
      norm_num]
    exact round2_zero
  · show 0 ≤ round2 (((SCORE_MAX - max SCORE_MIN (min SCORE_MAX s)) /
      (SCORE_MAX - SCORE_MIN)) * 100)
    rw [hval]
    exact round2_nonneg (by nlinarith)
  · show round2 (((SCORE_MAX - max SCORE_MIN (min SCORE_MAX s)) /
      (SCORE_MAX - SCORE_MIN)) * 100) ≤ 100
    rw [hval]
    refine round2_le_hundred ?_
    have hd1 : SCORE_MAX - SCORE_MIN = 1 := by norm_num [SCORE_MIN, SCORE_MAX]
    have h3 : SCORE_MAX - max SCORE_MIN (min SCORE_MAX s) ≤ 1 := by linarith
    linarith
  · simp [compute_ml_anomaly_score]
  · show (if d < -(15/100) then "High" else if d < 0 then "Medium" else "Low") = "High" ↔
      d < -(15/100)
    split_ifs with h1 h2
    · exact ⟨fun _ => h1, fun _ => rfl⟩
    · exact ⟨fun h => absurd h (by decide), fun h => absurd h h1⟩
    · exact ⟨fun h => absurd h (by decide), fun h => absurd h h1⟩
  · show (if d < -(15/100) then "High" else if d < 0 then "Medium" else "Low") =
      "Medium" ↔ -(15/100) ≤ d ∧ d < 0
    split_ifs with h1 h2
    · exact ⟨fun h => absurd h (by decide), fun h => absurd h1 (by push_neg; exact h.1)⟩
    · exact ⟨fun _ => ⟨le_of_not_lt h1, h2⟩, fun _ => rfl⟩
    · exact ⟨fun h => absurd h (by decide), fun h => absurd h.2 h2⟩
  · show (if d < -(15/100) then "High" else if d < 0 then "Medium" else "Low") =
      "Low" ↔ 0 ≤ d
    split_ifs with h1 h2
    · exact ⟨fun h => absurd h (by decide),
        fun h => absurd h1 (by push_neg; linarith)⟩
    · exact ⟨fun h => absurd h (by decide), fun h => absurd h2 (by push_neg; exact h)⟩
    · exact ⟨fun _ => le_of_not_lt h2, fun _ => rfl⟩

/-- Witness for C6 at raw score `-1` (below the clamp range): the
normalised score is 100. -/
theorem c6_anomaly_scorer_witness :
    (compute_ml_anomaly_score (-1) (-1)).ml_anomaly_score = 100 :=
  (c6_anomaly_scorer (-1) (-1)).2.1 (by norm_num)

/-! ### C7: domain-age resolver -/

theorem domainAgeScore_le (age : Int) : domainAgeScore age ≤ 25 := by
  unfold domainAgeScore
  split_ifs <;> norm_num

/-- Claim C7: exactly one of the four domain-age outcomes applies —
allow-listed domains short-circuit with age 5000 and score 0, WHOIS
unavailability scores 8, a failed lookup scores 5, and a successful
lookup scores by age: 20 below 30 days, 12 below 180, 5 below 365,
0 otherwise, and 10 when the age is unknown (`-1`). -/
theorem c7_domain_resolver (reg : String) (avail : Bool) (lk : WhoisLookup) :
    (reg ∈ BENIGN_DOMAINS →
      analyze_domain reg avail lk =
        { domain_age_days := 5000, rule_score := 0 }) ∧
    (reg ∉ BENIGN_DOMAINS → avail = false →
      (analyze_domain reg avail lk).rule_score = 8) ∧
    (reg ∉ BENIGN_DOMAINS → avail = true → lk = .failure →
      (analyze_domain reg avail lk).rule_score = 5) ∧
    (∀ age : Int, reg ∉ BENIGN_DOMAINS → avail = true → lk = .success age →
      (analyze_domain reg avail lk).domain_age_days = age ∧
      (analyze_domain reg avail lk).rule_score =
        (if age = -1 then 10 else if age < 30 then 20
         else if age < 180 then 12 else if age < 365 then 5 else 0)) := by
  refine ⟨?_, ?_, ?_, ?_⟩
  · intro hb
    simp [analyze_domain, hb]
  · intro hb ha
    simp [analyze_domain, hb, ha]
  · intro hb ha hl
    subst hl
    simp [analyze_domain, hb, ha]
  · intro age hb ha hl
    subst hl
    have he : analyze_domain reg avail (WhoisLookup.success age) =
        { domain_age_days := age, rule_score := min (domainAgeScore age) 25 } := by
      simp [analyze_domain, hb, ha]
    constructor
    · rw [he]
    · rw [he]
      show min (domainAgeScore age) 25 = _
      rw [Nat.min_eq_left (domainAgeScore_le age)]
      rfl

/-- Witness for C7: the allow-listed domain `google.com` short-circuits
with age 5000 and score 0. -/
theorem c7_domain_resolver_witness :
    analyze_domain "google.com" true WhoisLookup.failure =
      { domain_age_days := 5000, rule_score := 0 } :=
  (c7_domain_resolver "google.com" true WhoisLookup.failure).1 (by decide)

/-! ### C8: TLS inspector -/

/-- Counterexample to claim C8 as stated: for an https URL whose parsed
hostname is empty (e.g. `https://@`), the inspector scores 5 and ignores
the connection outcome entirely — no handshake branch applies, although
the claim says every https URL attempts the handshake and lands in one
of the four connection-outcome branches (a clean success would have to
score `min(0, 20) = 0`). -/
theorem c8_counterexample :
    analyze_ssl "https" "" (SslConn.success false 999) =
      analyze_ssl "https" "" SslConn.sslError ∧
    (analyze_ssl "https" "" (SslConn.success false 999)).rule_score = 5 ∧
    (analyze_ssl "https" "" (SslConn.success false 999)).rule_score ≠
      min (sslSuccessRawScore false 999) 20 :=
  ⟨by decide, by decide, by decide⟩

/-- Claim C8 (amended): a non-https scheme scores exactly 20 with no
certificate check (the result ignores the connection outcome); an https
scheme with an empty parsed hostname scores 5, also without any
connection attempt; otherwise exactly one connection-outcome branch
applies — handshake/validation failure 18, connection failure 8,
unexpected error 5, or success, where the self-signed penalty (+15) and
the expiry penalties (expired +18, fewer than 15 days +10, fewer than 30
days +5) co-occur and the total is capped at 20. -/
theorem c8_tls_inspector (scheme hostname : String) (conn : SslConn) :
    (lowerStr scheme ≠ "https" →
      (analyze_ssl scheme hostname conn).rule_score = 20 ∧
      (analyze_ssl scheme hostname conn).has_https = false ∧
      (∀ conn2 : SslConn,
        analyze_ssl scheme hostname conn2 = analyze_ssl scheme hostname conn)) ∧
    (lowerStr scheme = "https" → hostname = "" →
      (analyze_ssl scheme hostname conn).rule_score = 5 ∧
      (∀ conn2 : SslConn,
        analyze_ssl scheme hostname conn2 = analyze_ssl scheme hostname conn)) ∧
    (lowerStr scheme = "https" → hostname ≠ "" →
      (conn = SslConn.sslError → (analyze_ssl scheme hostname conn).rule_score = 18) ∧
      (conn = SslConn.connError → (analyze_ssl scheme hostname conn).rule_score = 8) ∧
      (conn = SslConn.otherError → (analyze_ssl scheme hostname conn).rule_score = 5) ∧
      (∀ (ss : Bool) (dl : Int), conn = SslConn.success ss dl →
        (analyze_ssl scheme hostname conn).rule_score =
          min ((if ss then 15 else 0) +
            (if dl < 0 then 18 else if dl < 15 then 10 else if dl < 30 then 5 else 0)) 20 ∧
        (analyze_ssl scheme hostname conn).has_valid_ssl = true) ∧
      (analyze_ssl scheme hostname conn).rule_score ≤ 20) := by
  refine ⟨?_, ?_, ?_⟩
  · intro hs
    refine ⟨?_, ?_, ?_⟩
    · simp [analyze_ssl, hs]
    · simp [analyze_ssl, hs]
    · intro conn2
      simp [analyze_ssl, hs]
  · intro hs hh
    refine ⟨?_, ?_⟩
    · simp [analyze_ssl, hs, hh]
    · intro conn2
      simp [analyze_ssl, hs, hh]
  · intro hs hh
    refine ⟨?_, ?_, ?_, ?_, analyze_ssl_score_le _ _ _⟩
    · intro hc; subst hc; simp [analyze_ssl, hs, hh]
    · intro hc; subst hc; simp [analyze_ssl, hs, hh]
    · intro hc; subst hc; simp [analyze_ssl, hs, hh]
    · intro ss dl hc
      subst hc
      constructor
      · simp [analyze_ssl, hs, hh, sslSuccessRawScore]
      · simp [analyze_ssl, hs, hh]

/-- Witness for C8 (amended): an `http` URL scores 20 and skips the
certificate check. -/
theorem c8_tls_inspector_witness :
    (analyze_ssl "http" "a.com" SslConn.sslError).rule_score = 20 ∧
    (analyze_ssl "http" "a.com" SslConn.sslError).has_https = false ∧
    (∀ conn2 : SslConn,
      analyze_ssl "http" "a.com" conn2 = analyze_ssl "http" "a.com" SslConn.sslError) :=
  (c8_tls_inspector "http" "a.com" SslConn.sslError).1 (by decide)

/-! ### C9: redirect scoring -/

/-- Claim C9: on a successfully traced chain the redirect stage score is
the sum of the triggered deltas — 15 for at least 5 hops (8 for at least
3), 10 for more than 2 distinct registrable domains, 12 for an adjacent
https→http downgrade — capped at 20; in particular 6 hops over 3
distinct domains with a downgrade score `min(15+10+12, 20) = 20`. -/
theorem c9_redirect_scoring (history : List Hop) (finalHop : Hop) :
    ((analyze_redirects (RedirectOutcome.success history finalHop)).rule_score =
      min ((if history.length ≥ 5 then 15 else if history.length ≥ 3 then 8 else 0) +
           (if distinctDomainCount (history ++ [finalHop]) > 2 then 10 else 0) +
           (if hasDowngradePair (history ++ [finalHop]) = true then 12 else 0)) 20) ∧
    (history.length = 6 → distinctDomainCount (history ++ [finalHop]) = 3 →
      hasDowngradePair (history ++ [finalHop]) = true →
      (analyze_redirects (RedirectOutcome.success history finalHop)).rule_score = 20) := by
  have heq : (analyze_redirects (RedirectOutcome.success history finalHop)).rule_score =
      min ((if history.length ≥ 5 then 15 else if history.length ≥ 3 then 8 else 0) +
           (if distinctDomainCount (history ++ [finalHop]) > 2 then 10 else 0) +
           (if hasDowngradePair (history ++ [finalHop]) = true then 12 else 0)) 20 := by
    show min (redirectSuccessRawScore history.length
      (decide (distinctDomainCount (history ++ [finalHop]) > 2))
      (hasDowngradePair (history ++ [finalHop]))) 20 = _
    simp only [redirectSuccessRawScore, decide_eq_true_eq]
  refine ⟨heq, ?_⟩
  intro h6 h3 hd
  rw [heq, h6, h3, hd]
  norm_num

/-- The six-hop, three-domain, downgrade chain used to witness C9. -/
def witnessHistory : List Hop :=
  [{ scheme := "https", regDomain := "a.com" },
   { scheme := "https", regDomain := "b.com" },
   { scheme := "https", regDomain := "c.com" },
   { scheme := "https", regDomain := "a.com" },
   { scheme := "https", regDomain := "a.com" },
   { scheme := "https", regDomain := "a.com" }]

def witnessFinalHop : Hop := { scheme := "http", regDomain := "a.com" }

/-- Witness for C9 at a concrete 6-hop chain over 3 registrable domains
with an https→http downgrade: the stage score is 20. -/
theorem c9_redirect_scoring_witness :
    (analyze_redirects (RedirectOutcome.success witnessHistory witnessFinalHop)).rule_score
      = 20 :=
  (c9_redirect_scoring witnessHistory witnessFinalHop).2 (by decide) (by decide) (by decide)

/-! ### C10: blacklist hyperproperty -/

/-- Claim C10: the blacklist check is a function of the extracted
registrable domain alone — two URLs with the same registrable domain get
the identical blacklist result, whatever their scheme, subdomains, path,
query or fragment — and the stage score is exactly 40 when the flag is
set and exactly 0 otherwise. -/
theorem c10_blacklist_domain_only (md5hex : String → String)
    (ext : String → String × String) (u1 u2 : String)
    (h : mkRegistered (ext u1).1 (ext u1).2 = mkRegistered (ext u2).1 (ext u2).2) :
    check_blacklist md5hex ext u1 = check_blacklist md5hex ext u2 ∧
    ((check_blacklist md5hex ext u1).rule_score =
      if (check_blacklist md5hex ext u1).is_blacklisted then 40 else 0) ∧
    ((check_blacklist md5hex ext u1).is_blacklisted = true ↔
      (check_blacklist md5hex ext u1).blacklist_sources ≠ []) := by
  refine ⟨?_, (checkBlacklistOfRegistered_char _ _).1,
    (checkBlacklistOfRegistered_char _ _).2⟩
  unfold check_blacklist
  rw [h]

def witnessMd5 : String → String := fun _ => "00000000000000000000000000000000"

def witnessExt : String → String × String := fun _ => ("malware-test", "com")

/-- Witness for C10: two URLs that both extract to the blacklisted
registrable domain `malware-test.com` get the identical result. -/
theorem c10_blacklist_domain_only_witness :
    check_blacklist witnessMd5 witnessExt "https://sub.malware-test.com/a?b#c" =
      check_blacklist witnessMd5 witnessExt "http://malware-test.com" ∧
    ((check_blacklist witnessMd5 witnessExt "https://sub.malware-test.com/a?b#c").rule_score =
      if (check_blacklist witnessMd5 witnessExt
        "https://sub.malware-test.com/a?b#c").is_blacklisted then 40 else 0) ∧
    ((check_blacklist witnessMd5 witnessExt
        "https://sub.malware-test.com/a?b#c").is_blacklisted = true ↔
      (check_blacklist witnessMd5 witnessExt
        "https://sub.malware-test.com/a?b#c").blacklist_sources ≠ []) :=
  c10_blacklist_domain_only witnessMd5 witnessExt
    "https://sub.malware-test.com/a?b#c" "http://malware-test.com" (by rfl)

end SafeLink
